import Mathlib

/-!
Verification development for the newsletter-signup automation engine.

The development shallowly embeds the element-resolution layer
(`src/automation/selectors.ts`, class `SelectorEngine`), the orchestration of
`src/unnamed/part_001` (class `NewsletterAutomation`), and the orchestration of
`src/src/BQLRunner.ts` (class `BQLNewsletterAutomation`).  The external
browser driver (Playwright) is modelled as record-of-functions data: a page
assigns to every selector string the outcome of querying it, every element
carries the attributes the code inspects (attachment, rendering, size), and
every driver call that can reject is modelled as `Except String`.  Driver
waits and timeouts resolve to plain boolean readiness outcomes, matching the
driver contract that a timed-out wait reports not-ready rather than hanging.
-/

/-- First result of mapping an option-valued function over a list; models the
try-in-order loops pervasive in the source. -/
def firstSome (f : α → Option β) : List α → Option β
  | [] => none
  | a :: as =>
    match f a with
    | some b => some b
    | none => firstSome f as

/-- Variant of `firstSome` for lookups that can raise: the first raised error
propagates, a hit stops the scan, a miss continues. -/
def firstSomeE (f : α → Except ε (Option β)) : List α → Except ε (Option β)
  | [] => .ok none
  | a :: as =>
    match f a with
    | .error e => .error e
    | .ok (some b) => .ok (some b)
    | .ok none => firstSomeE f as

/-- Whether an `Except` is an error, without needing decidable equality of the
payload types. -/
def isErr : Except ε α → Bool
  | .error _ => true
  | .ok _ => false

/-- An element as the driver exposes it: attached to a DOM, rendered with a
layout (not display-suppressed), and with a pixel size.  These are the only
attributes the embedded code inspects. -/
structure Elem where
  attached : Bool
  displayed : Bool
  width : Nat
  height : Nat
deriving Repr, DecidableEq

/-- Driver visibility: attached, not display-suppressed, and positively
sized.  This is the readiness condition behind the driver's `visible` wait
state and the non-nullity condition of `boundingBox`. -/
def visibleE (e : Elem) : Bool :=
  e.attached && e.displayed && decide (0 < e.width) && decide (0 < e.height)

/-- Driver `boundingBox`: the box of a visible element, and `none` for an
element that is not visible (detached, display-suppressed, or zero-sized). -/
def boundingBox (e : Elem) : Option (Nat × Nat) :=
  if visibleE e then some (e.width, e.height) else none

/-- Outcome of resolving one selector string in one context: the query raised
(bad pattern), matched a first element, or matched nothing. -/
inductive QueryResult where
  | err
  | found (e : Elem)
  | notFound
deriving Repr, DecidableEq

/-- Outcome of a query-all: raised, or a (possibly empty) list of matches. -/
inductive AllResult where
  | err
  | list (es : List Elem)
deriving Repr, DecidableEq

/-- A handle returned by resolution: bound to an element, or a locator that
currently matches nothing (possible when waiting for the `detached` state). -/
inductive Handle where
  | el (e : Elem)
  | dangling
deriving Repr, DecidableEq

/-- The readiness states of `SelectorStrategy.waitFor` in
`src/automation/types.ts`. -/
inductive WaitState where
  | visible
  | attached
  | detached
deriving Repr, DecidableEq

/-- `SelectorStrategy` of `src/automation/types.ts`: a primary selector,
ordered fallbacks, and an optional required readiness state (the per-pattern
timeout only bounds the wait and is absorbed into the boolean wait
outcome). -/
structure Strategy where
  primary : String
  fallbacks : List String
  waitFor : Option WaitState := none
deriving Repr, DecidableEq

/-- A DOM tree node for the in-page shadow search of
`SelectorEngine.findInShadowDOM`: the selector strings the node matches, the
children of its shadow root (empty when it hosts none), and its light-DOM
children. -/
inductive DomNode where
  | mk (sels : List String) (shadow : List DomNode) (kids : List DomNode)
deriving Repr

/-- A frame as `findInIframes` sees it: whether `contentFrame()` yields a
document, and its per-selector query outcomes. -/
structure FrameM where
  hasContent : Bool
  q : String → QueryResult

/-- The page model consumed by `SelectorEngine`: main-document first-match
and all-matches queries, the frame list, which selector strings the in-page
`querySelector` accepts, and the document tree scanned by the shadow
search. -/
structure PageM where
  query : String → QueryResult
  queryAll : String → AllResult
  frames : List FrameM
  validSel : String → Bool
  dom : List DomNode

/-- `isElementReady` of `SelectorEngine`, on the outcome of a query: the
`waitFor` call resolves true exactly when the located element is in the
requested state, defaulting to `visible`; on a locator matching nothing,
waiting for `visible` or `attached` times out (false) while waiting for
`detached` succeeds. -/
def readyQ (r : QueryResult) (w : Option WaitState) : Bool :=
  match r, w.getD .visible with
  | .found e, .visible => visibleE e
  | .found e, .attached => e.attached
  | .found e, .detached => !e.attached
  | .notFound, .detached => true
  | .notFound, _ => false
  | .err, _ => false

/-- One iteration of the selector loop in `SelectorEngine.findElement`: a
raised query is caught and the loop continues; a ready element is returned
only when its bounding box is non-null.  A locator matching nothing never
yields a handle here: its readiness wait either times out or (for `detached`)
succeeds with the follow-up `boundingBox` raising, and both failures are
swallowed by the per-selector catch. -/
def tryOne (pg : PageM) (w : Option WaitState) (sel : String) : Option Handle :=
  match pg.query sel with
  | .err => none
  | .notFound => none
  | .found e =>
    if readyQ (.found e) w then
      match boundingBox e with
      | some _ => some (.el e)
      | none => none
    else none

/-- The selector loop of `findElement` over `primary :: fallbacks`. -/
def findScan (pg : PageM) (w : Option WaitState) : List String → Option Handle
  | [] => none
  | sel :: rest =>
    match tryOne pg w sel with
    | some h => some h
    | none => findScan pg w rest

/-- `SelectorEngine.findElement`: try the primary selector then each
fallback in order on the main document; per-selector failures are swallowed;
`none` only on exhaustion. -/
def findElement (pg : PageM) (s : Strategy) : Option Handle :=
  findScan pg s.waitFor (s.primary :: s.fallbacks)

/-- The per-frame selector loop of `SelectorEngine.findInIframes`: a ready
element is returned with no bounding-box check; a locator matching nothing
with a `detached` wait returns the dangling locator; a raised query aborts the
remaining selectors of this frame (the catch wraps the whole frame body). -/
def frameSels (w : Option WaitState) (q : String → QueryResult) :
    List String → Option Handle
  | [] => none
  | sel :: rest =>
    match q sel with
    | .err => none
    | .found e =>
      if readyQ (.found e) w then some (.el e) else frameSels w q rest
    | .notFound =>
      if readyQ .notFound w then some .dangling else frameSels w q rest

/-- The frame loop of `findInIframes`: frames without a content document are
skipped, per-frame failures are swallowed and the scan continues. -/
def frameScan (w : Option WaitState) (sels : List String) :
    List FrameM → Option Handle
  | [] => none
  | fr :: rest =>
    if fr.hasContent then
      match frameSels w fr.q sels with
      | some h => some h
      | none => frameScan w sels rest
    else frameScan w sels rest

/-- `SelectorEngine.findInIframes`: primary then fallbacks inside each frame
in enumeration order. -/
def findInIframes (pg : PageM) (s : Strategy) : Option Handle :=
  frameScan s.waitFor (s.primary :: s.fallbacks) pg.frames

/-- The fallback loop of `SelectorEngine.findAllElements`. -/
def fallbackAll (pg : PageM) : List String → List Elem
  | [] => []
  | f :: rest =>
    match pg.queryAll f with
    | .list es => if es.isEmpty then fallbackAll pg rest else es
    | .err => fallbackAll pg rest

/-- `SelectorEngine.findAllElements`: all matches of the primary selector, or
of the first fallback with matches; raised queries are swallowed. -/
def findAllElements (pg : PageM) (s : Strategy) : List Elem :=
  match pg.queryAll s.primary with
  | .list es => if es.isEmpty then fallbackAll pg s.fallbacks else es
  | .err => fallbackAll pg s.fallbacks

/-- Selector lists of a `DomNode`. -/
def DomNode.selList : DomNode → List String
  | .mk sels _ _ => sels

/-- Shadow-root children of a `DomNode` (empty when it hosts no shadow
root). -/
def DomNode.shadowOf : DomNode → List DomNode
  | .mk _ sh _ => sh

/-- Light-DOM children of a `DomNode`. -/
def DomNode.kidsOf : DomNode → List DomNode
  | .mk _ _ kids => kids

mutual

/-- `root.querySelector(sel)` restricted to the light DOM: first match in
preorder, not descending into shadow roots. -/
def qsNode (sel : String) : DomNode → Option DomNode
  | .mk sels sh kids =>
    if sel ∈ sels then some (.mk sels sh kids) else qsList sel kids

/-- `querySelector` over a list of sibling nodes. -/
def qsList (sel : String) : List DomNode → Option DomNode
  | [] => none
  | n :: rest =>
    match qsNode sel n with
    | some r => some r
    | none => qsList sel rest

end

mutual

/-- Preorder scan over sibling nodes for shadow hosts (the
`querySelectorAll('*')` loop of the in-page `searchShadowDOM`). -/
def hostScan (sel : String) : List DomNode → Option DomNode
  | [] => none
  | n :: rest =>
    match hostNode sel n with
    | some r => some r
    | none => hostScan sel rest

/-- Scan one node: run the full search inside its shadow root if it hosts
one (light-DOM `querySelector` of that root, then its own host scan), then
continue over its light-DOM children. -/
def hostNode (sel : String) : DomNode → Option DomNode
  | .mk _ sh kids =>
    match
      (match qsList sel sh with
       | some r => some r
       | none => hostScan sel sh) with
    | some r => some r
    | none => hostScan sel kids

end

/-- The in-page `searchShadowDOM(root, selector)` of
`SelectorEngine.findInShadowDOM`: first a light-DOM `querySelector` of the
root, then a preorder scan of the root's descendants recursing into each
shadow root. -/
def searchRoots (sel : String) (roots : List DomNode) : Option DomNode :=
  match qsList sel roots with
  | some r => some r
  | none => hostScan sel roots

/-- The candidate loop inside the single `page.evaluate` of
`findInShadowDOM`: an invalid selector makes the in-page `querySelector`
throw, so the whole evaluation rejects; there is no surrounding catch, so the
rejection propagates to the caller. -/
def shadowTry (pg : PageM) : List String → Except String (Option DomNode)
  | [] => .ok none
  | sel :: rest =>
    if pg.validSel sel then
      match searchRoots sel pg.dom with
      | some n => .ok (some n)
      | none => shadowTry pg rest
    else .error "evaluate: invalid selector"

/-- `SelectorEngine.findInShadowDOM`: one in-page evaluation trying the
primary selector then each fallback over the whole document, recursing
through shadow roots.  Unlike `findElement` and `findInIframes`, a failure of
the evaluation is not caught. -/
def findInShadowDOM (pg : PageM) (s : Strategy) :
    Except String (Option DomNode) :=
  shadowTry pg (s.primary :: s.fallbacks)

/-! ## The `NewsletterAutomation` orchestration of `src/unnamed/part_001`

The class methods become functions over a `Driver`: the page model consumed
by its `SelectorEngine` plus the remaining driver calls the orchestration
makes.  Driver interactions that matter to the verified properties are
recorded in an event trace; `Date.now()` bookkeeping is abstracted into the
boolean `executionTimeSet`. -/

/-- Page events recorded by the embedding of `part_001`. -/
inductive Ev where
  | popupPhase
  | scroll (pct : Nat)
  | popupClick
  | emailSearch
  | fillEmail
  | labelClick
  | cbClick
  | submitSearch
  | submitClick
deriving Repr, DecidableEq

/-- Trace of recorded page events. -/
abbrev Trace := List Ev

/-- The `emailInputStrategies` table of `part_001`, verbatim. -/
def emailInputStrategies : List Strategy :=
  [ { primary := "input[type=\"email\"]",
      fallbacks :=
        [ "input[name*=\"email\"]",
          "input[placeholder*=\"email\" i]",
          "input[id*=\"email\"]",
          ".email-input input",
          ".newsletter-email input",
          "[data-testid*=\"email\"] input",
          "form input[type=\"email\"]",
          "form input[name*=\"email\" i]",
          "form input[placeholder*=\"email\" i]",
          "form input[id*=\"email\" i]",
          "form input[class*=\"email\" i]" ] },
    { primary := "input[name=\"EMAIL\"]",
      fallbacks :=
        [ "input[name=\"email_address\"]",
          "input[name=\"user_email\"]",
          "input[class*=\"email\"]" ] } ]

/-- The `submitButtonStrategies` table of `part_001`, verbatim. -/
def submitButtonStrategies : List Strategy :=
  [ { primary := "button[type=\"submit\"]",
      fallbacks :=
        [ "input[type=\"submit\"]",
          "button:has-text(\"Subscribe\")",
          "button:has-text(\"Sign Up\")",
          "button:has-text(\"Join\")",
          ".submit-btn",
          ".newsletter-submit",
          "[data-testid*=\"submit\"]" ] } ]

/-- The `checkboxStrategies` table of `part_001`, verbatim. -/
def checkboxStrategies : List Strategy :=
  [ { primary := "input[type=\"checkbox\"]",
      fallbacks :=
        [ "input[type=\"checkbox\"][name*=\"agree\"]",
          "input[type=\"checkbox\"][id*=\"terms\"]",
          "input[type=\"checkbox\"][class*=\"consent\"]" ] } ]

/-- `PopupStrategy.action` of `src/automation/types.ts`. -/
inductive PopupAction where
  | click
  | fill
  | wait
deriving Repr, DecidableEq

/-- `PopupStrategy` of `src/automation/types.ts`. -/
structure PopupStrategy where
  name : String
  selectors : Strategy
  action : PopupAction
deriving Repr, DecidableEq

/-- The first entry of the `popupStrategies` table of `part_001`: detect a
newsletter popup and wait. -/
def newsletterPopupStrategy : PopupStrategy :=
  { name := "Newsletter Popup",
    selectors :=
      { primary := ".newsletter-popup",
        fallbacks := [".popup", ".modal", "[role=\"dialog\"]"] },
    action := .wait }

/-- The second entry of the `popupStrategies` table of `part_001`: find a
dismiss control and click it. -/
def closeButtonStrategy : PopupStrategy :=
  { name := "Close Button",
    selectors :=
      { primary := ".close-btn",
        fallbacks := [".close", "[aria-label=\"Close\"]", "button:has-text(\"×\")"] },
    action := .click }

/-- The `popupStrategies` table of `part_001`, verbatim. -/
def popupStrategies : List PopupStrategy :=
  [newsletterPopupStrategy, closeButtonStrategy]

/-- `DiagnosticInfo` of `src/automation/types.ts`, as collected by
`DiagnosticEngine.collectDiagnostics` (which catches internally and so never
raises). -/
structure DiagInfo where
  pageTitle : String := ""
  popupDetected : Bool := false
  iframeCount : Nat := 0
  shadowDOMDetected : Bool := false
  scrollLocked : Bool := false
  modalActive : Bool := false
deriving Repr, DecidableEq

/-- A resolved signup-form element, tagged with the context it was found
in. -/
inductive Found where
  | mainH (h : Handle)
  | frameH (h : Handle)
  | shadowH (n : DomNode)

/-- The driver as `part_001` consumes it: the selector-engine page model plus
navigation, fills, clicks, the label lookup of the checkbox path, the
`outerHTML` evaluation, the diagnostics stream (a function of how many
scrolls have been performed, the only page mutation the model tracks), and
the per-selector outcome of the `waitForSelector` probes of
`verifySubmissionSuccess`. -/
structure Driver where
  pm : PageM
  navigate : Except String Unit
  fillRes : Found → Except String Unit
  clickRes : Found → Except String Unit
  clickPopup : Handle → Except String Unit
  labelClick : String → Except String Unit
  cbClick : Elem → Except String Unit
  isChecked : Elem → Bool
  idAttr : Elem → Option String
  outerHTML : Elem → String
  diagAfter : Nat → DiagInfo
  verifySel : String → Bool

/-- `AutomationConfig` of `src/automation/types.ts`, reduced to the fields
the orchestration branches on (`url`, `email`, `timeout` and `scrollDelay`
are absorbed into the driver model). -/
structure AutomationConfig where
  retryAttempts : Nat
deriving Repr, DecidableEq

/-- `AutomationResult` of `src/automation/types.ts`; `executionTime` is
abstracted to the fact that it was assigned. -/
structure AutomationResult where
  success : Bool
  strategiesUsed : List String
  errors : List String
  diagnostics : DiagInfo
  executionTimeSet : Bool

/-- `NewsletterAutomation.findEmailInput`: every email strategy on the main
page, then every one in iframes, then every one through the shadow search;
the first hit wins and is tagged with its context.  Returns the
`strategiesUsed` entry it pushes and the possibly-raising outcome (a raised
shadow evaluation propagates to the caller). -/
def findEmailInput (d : Driver) : List String × Except String (Option Found) :=
  match firstSome (findElement d.pm) emailInputStrategies with
  | some h => (["Email input found on main page"], .ok (some (.mainH h)))
  | none =>
    match firstSome (findInIframes d.pm) emailInputStrategies with
    | some h => (["Email input found in iframe"], .ok (some (.frameH h)))
    | none =>
      match firstSomeE (findInShadowDOM d.pm) emailInputStrategies with
      | .error m => ([], .error m)
      | .ok (some n) => (["Email input found in shadow DOM"], .ok (some (.shadowH n)))
      | .ok none => ([], .ok none)

/-- `NewsletterAutomation.findSubmitButton`: same tiering over the submit
strategies. -/
def findSubmitButton (d : Driver) : List String × Except String (Option Found) :=
  match firstSome (findElement d.pm) submitButtonStrategies with
  | some h => (["Submit button found on main page"], .ok (some (.mainH h)))
  | none =>
    match firstSome (findInIframes d.pm) submitButtonStrategies with
    | some h => (["Submit button found in iframe"], .ok (some (.frameH h)))
    | none =>
      match firstSomeE (findInShadowDOM d.pm) submitButtonStrategies with
      | .error m => ([], .error m)
      | .ok (some n) => (["Submit button found in shadow DOM"], .ok (some (.shadowH n)))
      | .ok none => ([], .ok none)

/-- The per-checkbox loop of `NewsletterAutomation.handleCheckboxes`: an
unchecked box with an id gets its `label[for=id]` clicked first (the locator
object is always truthy, so failure is only observed when the click itself
rejects), falling back to a direct click; a rejected direct click aborts the
remaining boxes of this strategy (the catch sits at strategy level). -/
def cbLoop (d : Driver) : List Elem → Trace × List String × Except String Unit
  | [] => ([], [], .ok ())
  | e :: rest =>
    if d.isChecked e then cbLoop d rest
    else
      let step : Except String (Trace × List String) :=
        match d.idAttr e with
        | some i =>
          match d.labelClick i with
          | .ok () => .ok ([.labelClick], ["Clicked checkbox label for ID: " ++ i])
          | .error _ =>
            match d.cbClick e with
            | .error m => .error m
            | .ok () => .ok ([.cbClick], ["Clicked checkbox directly: " ++ d.outerHTML e])
        | none =>
          match d.cbClick e with
          | .error m => .error m
          | .ok () => .ok ([.cbClick], ["Clicked checkbox directly: " ++ d.outerHTML e])
      match step with
      | .error m => ([], [], .error m)
      | .ok (t0, l0) =>
        let (t, l, r) := cbLoop d rest
        (t0 ++ t, l0 ++ l, r)

/-- `NewsletterAutomation.verifySubmissionSuccess`: probe each success
indicator with a bounded wait; true on the first one that appears, false
after all time out.  The per-indicator catch makes the probe total. -/
def successIndicators : List String :=
  [ "text=\"Thank you\"",
    "text=\"Success\"",
    "text=\"Subscribed\"",
    "text=\"Check your email\"",
    ".success-message",
    ".confirmation" ]

/-- See `successIndicators`. -/
def verifySubmissionSuccess (d : Driver) : Bool :=
  successIndicators.any d.verifySel

/-- The strategy loop of `NewsletterAutomation.handleCheckboxes`: each
checkbox strategy resolves all matches and runs the per-checkbox loop; a
rejection inside one strategy is caught and the next strategy proceeds. -/
def cbStrategies (d : Driver) : List Strategy → Trace × List String
  | [] => ([], [])
  | st :: rest =>
    let es := findAllElements d.pm st
    let (t, l, _) := cbLoop d es
    let (t2, l2) := cbStrategies d rest
    (t ++ t2, l ++ l2)

/-- `NewsletterAutomation.handleCheckboxes`. -/
def handleCheckboxes (d : Driver) : Trace × List String :=
  cbStrategies d checkboxStrategies

/-- One attempt record of the retry loop of
`NewsletterAutomation.attemptNewsletterSignup`: the events, the
`strategiesUsed` entries and the `errors` entries this loop iteration
produced. -/
structure Attempt where
  trace : Trace
  used : List String
  errs : List String
deriving Repr, DecidableEq

/-- The error entry pushed when attempt `i` (0-based) finds no email
input. -/
def noInputMsg (i : Nat) : String :=
  "Attempt " ++ toString (i + 1) ++ ": Email input not found"

/-- The error entry pushed when attempt `i` (0-based) finds no submit
button. -/
def noSubmitMsg (i : Nat) : String :=
  "Attempt " ++ toString (i + 1) ++ ": Submit button not found"

/-- The error entry pushed when attempt `i` (0-based) raises. -/
def attemptFailMsg (i : Nat) (m : String) : String :=
  "Attempt " ++ toString (i + 1) ++ " failed: " ++ m

/-- The `strategiesUsed` entry pushed by a successful attempt `i`
(0-based). -/
def successMsg (i : Nat) : String :=
  "Successful on attempt " ++ toString (i + 1)

/-- One iteration of the retry loop of `attemptNewsletterSignup` (attempt
`i`, 0-based): locate the email input (the `.emailSearch` event), fill it,
handle checkboxes, locate the submit button (the `.submitSearch` event),
click it, and report success immediately.  The `verifySubmissionSuccess`
call in the source sits after the `return true` and is unreachable, so no
verification probe appears here.  Any rejection is caught by the per-attempt
catch and recorded as an error entry. -/
def signupAttempt (d : Driver) (i : Nat) : Bool × Attempt :=
  match findEmailInput d with
  | (lg, .error m) => (false, ⟨[.emailSearch], lg, [attemptFailMsg i m]⟩)
  | (lg, .ok none) => (false, ⟨[.emailSearch], lg, [noInputMsg i]⟩)
  | (lg, .ok (some h)) =>
    match d.fillRes h with
    | .error m => (false, ⟨[.emailSearch], lg, [attemptFailMsg i m]⟩)
    | .ok () =>
      let (tc, lc) := handleCheckboxes d
      match findSubmitButton d with
      | (ls, .error m) =>
        (false, ⟨[.emailSearch, .fillEmail] ++ tc ++ [.submitSearch],
                 lg ++ lc ++ ls, [attemptFailMsg i m]⟩)
      | (ls, .ok none) =>
        (false, ⟨[.emailSearch, .fillEmail] ++ tc ++ [.submitSearch],
                 lg ++ lc ++ ls, [noSubmitMsg i]⟩)
      | (ls, .ok (some b)) =>
        match d.clickRes b with
        | .error m =>
          (false, ⟨[.emailSearch, .fillEmail] ++ tc ++ [.submitSearch],
                   lg ++ lc ++ ls, [attemptFailMsg i m]⟩)
        | .ok () =>
          (true, ⟨[.emailSearch, .fillEmail] ++ tc ++ [.submitSearch, .submitClick],
                  lg ++ lc ++ ls ++ [successMsg i], []⟩)

/-- The retry loop of `attemptNewsletterSignup`: `n` remaining attempts
starting at index `i`; a successful attempt returns immediately, a failed one
is recorded and the loop continues. -/
def signupLoop (d : Driver) : Nat → Nat → Bool × List Attempt
  | 0, _ => (false, [])
  | n + 1, i =>
    match signupAttempt d i with
    | (true, a) => (true, [a])
    | (false, a) =>
      let (b, rest) := signupLoop d n (i + 1)
      (b, a :: rest)

/-- `NewsletterAutomation.attemptNewsletterSignup`: up to
`config.retryAttempts` sequential attempts; false only after exhausting
them. -/
def attemptNewsletterSignup (d : Driver) (cfg : AutomationConfig) :
    Bool × List Attempt :=
  signupLoop d cfg.retryAttempts 0

/-- Whether collected diagnostics report an active interstitial, the break
condition of the scroll loop in `triggerPopupsWithScrolling`. -/
def diagActive (dg : DiagInfo) : Bool :=
  dg.modalActive || dg.scrollLocked

/-- The `scrollStrategies` offsets of
`NewsletterAutomation.triggerPopupsWithScrolling`,verbatim: three descending
partial scrolls down then a scroll back to the top. -/
def scrollStrategies : List Nat := [25, 50, 75, 0]

/-- The scroll loop of `triggerPopupsWithScrolling`: scroll to each offset in
turn (`done` offsets already performed), re-collect diagnostics, and break on
the first report of an active modal or scroll lock. -/
def triggerLoop (d : Driver) (done : Nat) : List Nat → Trace × Nat
  | [] => ([], done)
  | p :: rest =>
    if diagActive (d.diagAfter (done + 1)) then ([.scroll p], done + 1)
    else
      let (t, n) := triggerLoop d (done + 1) rest
      (.scroll p :: t, n)

/-- `NewsletterAutomation.triggerPopupsWithScrolling`: the staged scroll loop
from a fresh page (no scrolls performed yet).  Returns the events and the
number of scrolls performed; the source returns nothing to its caller. -/
def triggerPopupsWithScrolling (d : Driver) : Trace × Nat :=
  triggerLoop d 0 scrollStrategies

/-- The strategy loop of `NewsletterAutomation.handlePopupsAndModals`: each
popup strategy is resolved with `findElement`; a hit pushes its
`strategiesUsed` entry, and a `click`-action strategy clicks the element
(a rejected click is caught and the loop continues) and re-collects
diagnostics (`n` scrolls have been performed by now). -/
def popupLoop (d : Driver) (n : Nat) :
    List PopupStrategy → Trace × List String × Option DiagInfo
  | [] => ([], [], none)
  | ps :: rest =>
    let (t2, l2, dg2) := popupLoop d n rest
    match findElement d.pm ps.selectors with
    | none => (t2, l2, dg2)
    | some h =>
      let lg := ["Popup Strategy: " ++ ps.name]
      match ps.action with
      | .click =>
        match d.clickPopup h with
        | .ok () => (.popupClick :: t2, lg ++ l2, (dg2.getD (d.diagAfter n)) |> some)
        | .error _ => (t2, lg ++ l2, dg2)
      | _ => (t2, lg ++ l2, dg2)

/-- `NewsletterAutomation.handlePopupsAndModals`: wait, run the scroll
trigger, then the popup-strategy loop.  Returns the events (opened by the
`.popupPhase` marker), the `strategiesUsed` entries, the scroll count, and
the last re-collected diagnostics if any. -/
def handlePopupsAndModals (d : Driver) :
    Trace × List String × Nat × Option DiagInfo :=
  let (ts, n) := triggerPopupsWithScrolling d
  let (tp, lp, dg) := popupLoop d n popupStrategies
  (.popupPhase :: ts ++ tp, lp, n, dg)

/-- The error entry `executeAutomation` pushes when called before
`initialize`. -/
def notInitializedMsg : String :=
  "Automation not initialized. Page, diagnostics, or selectors are null."

/-- The error entry `executeAutomation` pushes when the signup loop exhausts
its attempts. -/
def allAttemptsFailedMsg : String :=
  "Newsletter signup failed after all attempts"

/-- `NewsletterAutomation.executeAutomation`: build the result record; bail
out with an error entry when not initialized; otherwise navigate, collect
diagnostics, handle popups and modals, and run the signup retry loop; a
rejection reaching this level (navigation, in this model) is caught and
recorded.  `executionTime` is assigned on every exit path (the early return
and the `finally`), and the function always returns a result rather than
raising. -/
def executeAutomation (inited : Bool) (d : Driver) (cfg : AutomationConfig) :
    AutomationResult × Trace :=
  if !inited then
    ({ success := false, strategiesUsed := [], errors := [notInitializedMsg],
       diagnostics := {}, executionTimeSet := true }, [])
  else
    match d.navigate with
    | .error m =>
      ({ success := false, strategiesUsed := [], errors := ["Automation failed: " ++ m],
         diagnostics := {}, executionTimeSet := true }, [])
    | .ok () =>
      let d0 := d.diagAfter 0
      let (tp, lp, _, dg) := handlePopupsAndModals d
      let (ok, atts) := attemptNewsletterSignup d cfg
      ({ success := ok,
         strategiesUsed := lp ++ (atts.map Attempt.used).flatten,
         errors := (atts.map Attempt.errs).flatten ++
           (if ok then [] else [allAttemptsFailedMsg]),
         diagnostics := dg.getD d0,
         executionTimeSet := true },
       tp ++ (atts.map Attempt.trace).flatten)

/-! ## The `BQLNewsletterAutomation` orchestration of `src/src/BQLRunner.ts`

Element handles are opaque (`Nat`), and the page is a record of driver
functions.  Diagnostics counters (`domQueries`, `scrollEvents`, `retryCount`,
`popupDetected`, …) are write-only bookkeeping the orchestration never
branches on; the claims are settled on the event trace instead. -/

namespace BQL

/-- An opaque element handle returned by `page.$` / `frame.$` /
`element.$`. -/
abbrev BElem := Nat

/-- Page events recorded by the BQL embedding: email fills, submit clicks,
popup-dismiss clicks, and scroll stages. -/
inductive Ev where
  | fill
  | click
  | closeClick
  | scroll (pct : Nat)
deriving Repr, DecidableEq

/-- Trace of BQL page events. -/
abbrev Trace := List Ev

/-- A frame as `executeIframeStrategy` sees it: whether its URL contains
`about:blank`, and its `frame.$` query outcomes. -/
structure FrameB where
  isBlank : Bool
  q : String → Option BElem

/-- The BQL page/driver model: `page.$` (exceptions already caught by
`queryElement`), scoped `element.$` queries, `closest('form') ||
parentElement`, the frame list, `page.$$('*')`, per-host shadow facts (the
truthiness of the in-page `querySelector` results and whether the host's
evaluations complete), fill/click outcomes, and the scroll-lock evaluation. -/
structure Pg where
  q : String → Option BElem
  sub : BElem → String → Option BElem
  closestForm : BElem → BElem
  frames : List FrameB
  allElems : List BElem
  hasShadow : BElem → Bool
  shadowFind : BElem → String → Bool
  shadowFindSubmit : BElem → Bool
  evalOk : BElem → Bool
  fill : BElem → Except String Unit
  click : BElem → Except String Unit
  scrollLocked : Bool
  scrollLockEvalOk : Bool

/-- `BQLConfig`, reduced to the fields the orchestration branches on. -/
structure Cfg where
  maxRetries : Nat
  scrollLockDetection : Bool
  adaptiveScrolling : Bool
deriving Repr, DecidableEq

/-- Search context of a BQL selector strategy. -/
inductive Ctx where
  | main
  | iframe
  | shadow
deriving Repr, DecidableEq

/-- `SelectorStrategy` of `BQLRunner.ts`. -/
structure SelectorStrategy where
  name : String
  selectors : List String
  context : Ctx
  priority : Nat
deriving Repr, DecidableEq

/-- The `selectorStrategies` table of `BQLNewsletterAutomation`, verbatim. -/
def selectorStrategies : List SelectorStrategy :=
  [ { name := "standard-email-forms",
      selectors :=
        [ "form input[type=\"email\"]",
          "form input[name*=\"email\" i]",
          "form input[placeholder*=\"email\" i]",
          "form input[id*=\"email\" i]",
          "form input[class*=\"email\" i]" ],
      context := .main, priority := 1 },
    { name := "newsletter-specific",
      selectors :=
        [ "form[class*=\"newsletter\"] input[type=\"email\"]",
          "form[id*=\"newsletter\"] input[type=\"email\"]",
          "div[class*=\"newsletter\"] input[type=\"email\"]",
          "section[class*=\"newsletter\"] input[type=\"email\"]",
          "[data-newsletter] input[type=\"email\"]" ],
      context := .main, priority := 2 },
    { name := "subscription-forms",
      selectors :=
        [ "form[class*=\"subscribe\"] input[type=\"email\"]",
          "form[id*=\"subscribe\"] input[type=\"email\"]",
          "div[class*=\"subscribe\"] input[type=\"email\"]",
          "[data-subscribe] input[type=\"email\"]",
          "form[class*=\"signup\"] input[type=\"email\"]" ],
      context := .main, priority := 3 },
    { name := "popup-modal-forms",
      selectors :=
        [ "div[role=\"dialog\"] input[type=\"email\"]",
          ".modal input[type=\"email\"]",
          ".popup input[type=\"email\"]",
          "[aria-modal=\"true\"] input[type=\"email\"]",
          ".overlay input[type=\"email\"]" ],
      context := .main, priority := 4 },
    { name := "iframe-embedded",
      selectors :=
        [ "input[type=\"email\"]",
          "input[name*=\"email\" i]",
          "input[placeholder*=\"email\" i]" ],
      context := .iframe, priority := 5 },
    { name := "shadow-dom-components",
      selectors :=
        [ "input[type=\"email\"]",
          "input[name*=\"email\" i]" ],
      context := .shadow, priority := 6 } ]

/-- Ordered insertion by priority (the comparator of the source's
`sort((a, b) => a.priority - b.priority)`). -/
def insertByPriority (s : SelectorStrategy) :
    List SelectorStrategy → List SelectorStrategy
  | [] => [s]
  | t :: rest =>
    if s.priority ≤ t.priority then s :: t :: rest
    else t :: insertByPriority s rest

/-- Stable sort by priority, as `executeFormStrategies` performs before its
strategy loop. -/
def sortByPriority : List SelectorStrategy → List SelectorStrategy
  | [] => []
  | s :: rest => insertByPriority s (sortByPriority rest)

/-- `BQLNewsletterAutomation.queryElement`: `page.$` with the exception
swallowed to `null`. -/
def queryElement (pg : Pg) (sel : String) : Option BElem :=
  pg.q sel

/-- The submit-selector table of `BQLNewsletterAutomation.findSubmitButton`,
verbatim. -/
def submitSelectors : List String :=
  [ "button[type=\"submit\"]",
    "input[type=\"submit\"]",
    "button:has-text(\"Subscribe\")",
    "button:has-text(\"Sign Up\")",
    "button:has-text(\"Join\")",
    "button:has-text(\"Submit\")",
    "button",
    "[data-submit]" ]

/-- `BQLNewsletterAutomation.findSubmitButton`: climb to the enclosing form
(or parent), then the first submit selector matching inside it. -/
def findSubmitButton (pg : Pg) (emailInput : BElem) : Option BElem :=
  firstSome (pg.sub (pg.closestForm emailInput)) submitSelectors

/-- The submit-selector table of `findSubmitButtonInFrame`, verbatim. -/
def frameSubmitSelectors : List String :=
  [ "button[type=\"submit\"]",
    "input[type=\"submit\"]",
    "button:has-text(\"Subscribe\")",
    "button:has-text(\"Sign Up\")",
    "button" ]

/-- `BQLNewsletterAutomation.findSubmitButtonInFrame`: the first submit
selector matching anywhere in the frame. -/
def findSubmitButtonInFrame (fr : FrameB) : Option BElem :=
  firstSome fr.q frameSubmitSelectors

/-- The selector loop of `executeMainFrameStrategy`: the first selector whose
email input has a reachable submit button is filled and submitted; fill and
click rejections propagate (they are caught per strategy in
`executeFormStrategies`). -/
def mainStratLoop (pg : Pg) : List String → Trace × Except String Bool
  | [] => ([], .ok false)
  | sel :: rest =>
    match queryElement pg sel with
    | none => mainStratLoop pg rest
    | some inp =>
      match findSubmitButton pg inp with
      | none => mainStratLoop pg rest
      | some btn =>
        match pg.fill inp with
        | .error m => ([], .error m)
        | .ok () =>
          match pg.click btn with
          | .error m => ([.fill], .error m)
          | .ok () => ([.fill, .click], .ok true)

/-- `BQLNewsletterAutomation.executeMainFrameStrategy`. -/
def executeMainFrameStrategy (pg : Pg) (s : SelectorStrategy) :
    Trace × Except String Bool :=
  mainStratLoop pg s.selectors

/-- The per-frame selector loop of `executeIframeStrategy`: fill and click
rejections abort this frame's body and are caught by the per-frame catch. -/
def frameStratSels (pg : Pg) (fr : FrameB) : List String → Trace × Except String Bool
  | [] => ([], .ok false)
  | sel :: rest =>
    match fr.q sel with
    | none => frameStratSels pg fr rest
    | some inp =>
      match findSubmitButtonInFrame fr with
      | none => frameStratSels pg fr rest
      | some btn =>
        match pg.fill inp with
        | .error m => ([], .error m)
        | .ok () =>
          match pg.click btn with
          | .error m => ([.fill], .error m)
          | .ok () => ([.fill, .click], .ok true)

/-- The frame loop of `executeIframeStrategy`: `about:blank` frames are
skipped; a rejection inside one frame is caught (its events stand) and the
loop continues. -/
def frameLoop (pg : Pg) (sels : List String) : List FrameB → Trace × Bool
  | [] => ([], false)
  | fr :: rest =>
    if fr.isBlank then frameLoop pg sels rest
    else
      match frameStratSels pg fr sels with
      | (t, .ok true) => (t, true)
      | (t, .ok false) =>
        let (t2, b) := frameLoop pg sels rest
        (t ++ t2, b)
      | (t, .error _) =>
        let (t2, b) := frameLoop pg sels rest
        (t ++ t2, b)

/-- `BQLNewsletterAutomation.executeIframeStrategy`. -/
def executeIframeStrategy (pg : Pg) (s : SelectorStrategy) : Trace × Bool :=
  frameLoop pg s.selectors pg.frames

/-- `BQLNewsletterAutomation.handleShadowDomForm`: one in-page evaluation
fills and clicks inside the host's shadow root only when both an email input
and a submit button are found there, and computes a boolean saying whether it
did — but the caller discards that boolean and returns `true` whenever the
evaluation completes; `false` is returned only when the evaluation rejects.
(The source passes the selector as a second extra argument that the driver
does not forward, so at runtime the inner lookup cannot succeed; the model
keeps the lookup abstract, and the theorems do not depend on its outcome.) -/
def handleShadowDomForm (pg : Pg) (host : BElem) (sel : String) : Trace × Bool :=
  if pg.evalOk host then
    if pg.shadowFind host sel && pg.shadowFindSubmit host then
      ([.fill, .click], true)
    else ([], true)
  else ([], false)

/-- The per-host selector loop of `executeShadowDomStrategy`: for each
selector whose in-page shadow lookup reports a hit, run
`handleShadowDomForm`; a false report moves on to the next selector. -/
def shadowSels (pg : Pg) (host : BElem) : List String → Trace × Bool
  | [] => ([], false)
  | sel :: rest =>
    if pg.shadowFind host sel then
      match handleShadowDomForm pg host sel with
      | (t, true) => (t, true)
      | (t, false) =>
        let (t2, b) := shadowSels pg host rest
        (t ++ t2, b)
    else shadowSels pg host rest

/-- The host loop of `executeShadowDomStrategy`: every element of
`page.$$('*')` is probed for a shadow root; hosts whose evaluations reject
are skipped by the per-host catch. -/
def shadowHosts (pg : Pg) (sels : List String) : List BElem → Trace × Bool
  | [] => ([], false)
  | host :: rest =>
    if pg.evalOk host && pg.hasShadow host then
      match shadowSels pg host sels with
      | (t, true) => (t, true)
      | (t, false) =>
        let (t2, b) := shadowHosts pg sels rest
        (t ++ t2, b)
    else shadowHosts pg sels rest

/-- `BQLNewsletterAutomation.executeShadowDomStrategy`. -/
def executeShadowDomStrategy (pg : Pg) (s : SelectorStrategy) : Trace × Bool :=
  shadowHosts pg s.selectors pg.allElems

/-- The popup-selector table of `handleAdvancedPopups`, verbatim. -/
def popupSelectors : List String :=
  [ "div[role=\"dialog\"]",
    ".modal",
    ".popup",
    "[aria-modal=\"true\"]",
    ".overlay",
    "[data-popup]",
    "[data-modal]",
    ".newsletter-popup",
    ".subscribe-popup" ]

/-- The close-selector table of `closePopup`, verbatim. -/
def closeSelectors : List String :=
  [ "button[aria-label*=\"close\" i]",
    "button[aria-label*=\"dismiss\" i]",
    ".close",
    ".close-btn",
    "[data-close]",
    "button:has-text(\"×\")",
    "button:has-text(\"Close\")" ]

/-- `BQLNewsletterAutomation.closePopup`: click the first close control found
inside the popup; a rejected click propagates (there is no catch between here
and the attempt loop). -/
def closePopup (pg : Pg) (popup : BElem) : Trace × Except String Unit :=
  match firstSome (pg.sub popup) closeSelectors with
  | none => ([], .ok ())
  | some btn =>
    match pg.click btn with
    | .error m => ([], .error m)
    | .ok () => ([.closeClick], .ok ())

/-- The popup loop of `handleAdvancedPopups`: for the first matching popup
selector, if the popup hosts an email input with a reachable submit button it
is filled and submitted and the handler returns; otherwise the popup is
closed and the loop continues with the next selector.  Fill/click rejections
propagate to the attempt loop. -/
def popupScan (pg : Pg) : List String → Trace × Except String Unit
  | [] => ([], .ok ())
  | sel :: rest =>
    match queryElement pg sel with
    | none => popupScan pg rest
    | some popup =>
      match pg.sub popup "input[type=\"email\"]" with
      | some form =>
        match findSubmitButton pg form with
        | some btn =>
          match pg.fill form with
          | .error m => ([], .error m)
          | .ok () =>
            match pg.click btn with
            | .error m => ([.fill], .error m)
            | .ok () => ([.fill, .click], .ok ())
        | none =>
          match closePopup pg popup with
          | (t, .error m) => (t, .error m)
          | (t, .ok ()) =>
            let (t2, r) := popupScan pg rest
            (t ++ t2, r)
      | none =>
        match closePopup pg popup with
        | (t, .error m) => (t, .error m)
        | (t, .ok ()) =>
          let (t2, r) := popupScan pg rest
          (t ++ t2, r)

/-- `BQLNewsletterAutomation.handleAdvancedPopups`. -/
def handleAdvancedPopups (pg : Pg) : Trace × Except String Unit :=
  popupScan pg popupSelectors

/-- `BQLNewsletterAutomation.detectScrollLock`: disabled by configuration, or
the in-page overflow/class probe with a rejected evaluation reported as
`false`. -/
def detectScrollLock (pg : Pg) (cfg : Cfg) : Bool :=
  if !cfg.scrollLockDetection then false
  else if pg.scrollLockEvalOk then pg.scrollLocked else false

/-- The `scrollSteps` offsets of `performAdaptiveScrolling` as percentages,
verbatim (`[0.25, 0.5, 0.75, 1.0]`). -/
def scrollSteps : List Nat := [25, 50, 75, 100]

/-- `BQLNewsletterAutomation.performAdaptiveScrolling`: scroll to each offset
in turn with a settle delay.  The loop inspects nothing and never breaks;
every stage is always performed. -/
def performAdaptiveScrolling : Trace :=
  scrollSteps.map .scroll

/-- The strategy loop of `executeFormStrategies` over the priority-sorted
table: dispatch each strategy by context; a strategy that reports success
returns immediately; a strategy whose dispatch rejects is caught (its events
stand) and the loop continues. -/
def stratLoop (pg : Pg) : List SelectorStrategy → Trace × Bool
  | [] => ([], false)
  | s :: rest =>
    let step : Trace × Except String Bool :=
      match s.context with
      | .main => executeMainFrameStrategy pg s
      | .iframe =>
        let (t, b) := executeIframeStrategy pg s
        (t, .ok b)
      | .shadow =>
        let (t, b) := executeShadowDomStrategy pg s
        (t, .ok b)
    match step with
    | (t, .ok true) => (t, true)
    | (t, .ok false) =>
      let (t2, b) := stratLoop pg rest
      (t ++ t2, b)
    | (t, .error _) =>
      let (t2, b) := stratLoop pg rest
      (t ++ t2, b)

/-- `BQLNewsletterAutomation.executeFormStrategies`. -/
def executeFormStrategies (pg : Pg) : Trace × Bool :=
  stratLoop pg (sortByPriority selectorStrategies)

/-- The body of one attempt of `executeNewsletterSignup`: scroll-lock probe,
advanced popup handling, the form strategies, then (on failure, when
enabled) adaptive scrolling and the retry pause.  A rejection anywhere is
reported to the per-attempt catch with the events performed so far. -/
def attemptBody (pg : Pg) (cfg : Cfg) : Trace × Except String Bool :=
  let _ := detectScrollLock pg cfg
  match handleAdvancedPopups pg with
  | (t, .error m) => (t, .error m)
  | (t, .ok ()) =>
    let (t2, ok) := executeFormStrategies pg
    if ok then (t ++ t2, .ok true)
    else
      let t3 := if cfg.adaptiveScrolling then performAdaptiveScrolling else []
      (t ++ t2 ++ t3, .ok false)

/-- The retry loop of `executeNewsletterSignup`: up to `n` attempts; a
successful attempt returns immediately; a failed or rejected attempt is
recorded and the loop continues. -/
def bqlLoop (pg : Pg) (cfg : Cfg) : Nat → List Trace × Bool
  | 0 => ([], false)
  | n + 1 =>
    match attemptBody pg cfg with
    | (t, .ok true) => ([t], true)
    | (t, .ok false) =>
      let (ts, b) := bqlLoop pg cfg n
      (t :: ts, b)
    | (t, .error _) =>
      let (ts, b) := bqlLoop pg cfg n
      (t :: ts, b)

/-- `BQLNewsletterAutomation.executeNewsletterSignup`: the bounded retry
loop, returning the per-attempt event traces and the overall outcome. -/
def executeNewsletterSignup (pg : Pg) (cfg : Cfg) : List Trace × Bool :=
  bqlLoop pg cfg cfg.maxRetries

end BQL

/-! ## Specification-side helpers and concrete scenario data -/

/-- The scroll percentages appearing in a trace, in order. -/
def scrollPcts (t : Trace) : List Nat :=
  t.filterMap fun e =>
    match e with
    | .scroll p => some p
    | _ => none

/-- Index (1-based) of the first scroll stage after which the collected
diagnostics report an active interstitial, or the full stage count when none
does: the specification of where the staged scroll loop stops. -/
def stopLen (d : Driver) : Nat :=
  if diagActive (d.diagAfter 1) then 1
  else if diagActive (d.diagAfter 2) then 2
  else if diagActive (d.diagAfter 3) then 3
  else 4

/-- A visible 10 by 10 element. -/
def visElem : Elem := { attached := true, displayed := true, width := 10, height := 10 }

/-- An attached, rendered element whose bounding area is zero (a
display-suppressed decoy). -/
def zeroElem : Elem := { attached := true, displayed := true, width := 0, height := 0 }

/-- An empty main-document page model. -/
def emptyPageM : PageM :=
  { query := fun _ => .notFound,
    queryAll := fun _ => .list [],
    frames := [],
    validSel := fun _ => true,
    dom := [] }

/-- A frame whose only match is the zero-sized element under the selector
`input#zero`. -/
def zeroFrame : FrameM :=
  { hasContent := true,
    q := fun s => if s = "input#zero" then .found zeroElem else .notFound }

/-- Page exposing only `zeroFrame`. -/
def zeroFramePage : PageM :=
  { emptyPageM with frames := [zeroFrame] }

/-- A strategy that requires only attachment of `input#zero`. -/
def attachedStrat : Strategy :=
  { primary := "input#zero", fallbacks := [], waitFor := some .attached }

/-- A page on which every query raises and no selector string is accepted by
the in-page `querySelector`. -/
def badSelPage : PageM :=
  { query := fun _ => .err,
    queryAll := fun _ => .err,
    frames := [],
    validSel := fun _ => false,
    dom := [] }

/-- A strategy whose primary pattern is malformed. -/
def badStrat : Strategy := { primary := "input[[bad", fallbacks := [] }

/-- A frame on which every query raises (a detached frame). -/
def errFrame : FrameM := { hasContent := true, q := fun _ => .err }

/-- A driver that never rejects, never finds anything, and whose diagnostics
never report an interstitial: the C2 scenario of a page with no usable email
input. -/
def emptyDriver : Driver :=
  { pm := emptyPageM,
    navigate := .ok (),
    fillRes := fun _ => .ok (),
    clickRes := fun _ => .ok (),
    clickPopup := fun _ => .ok (),
    labelClick := fun _ => .error "label click timed out",
    cbClick := fun _ => .ok (),
    isChecked := fun _ => true,
    idAttr := fun _ => none,
    outerHTML := fun _ => "",
    diagAfter := fun _ => {},
    verifySel := fun _ => false }

/-- A driver whose page has a dismissible modal (a `.close-btn` control) and
a ready email input, but no submit control: every attempt fails with a
missing submit button while the popup pass clicks the close control once. -/
def modalNoSubmitDriver : Driver :=
  { emptyDriver with
    pm := { emptyPageM with
      query := fun s =>
        if s = ".close-btn" then .found visElem
        else if s = "input[type=\"email\"]" then .found visElem
        else .notFound } }

/-- A driver whose page has a ready email input and a ready submit button on
the main document: the successful-submission scenario. -/
def happyDriver : Driver :=
  { emptyDriver with
    pm := { emptyPageM with
      query := fun s =>
        if s = "input[type=\"email\"]" then .found visElem
        else if s = "button[type=\"submit\"]" then .found visElem
        else .notFound } }

/-- A second visible element, distinguishing the frame copy of the email
input from the main-document copy. -/
def visElemB : Elem := { attached := true, displayed := true, width := 20, height := 20 }

/-- A frame that also contains a ready email input. -/
def emailFrame : FrameM :=
  { hasContent := true,
    q := fun s => if s = "input[type=\"email\"]" then .found visElemB else .notFound }

/-- A driver whose page has the email input both on the main document and in
a frame: the context-precedence scenario. -/
def bothContextsDriver : Driver :=
  { emptyDriver with
    pm := { emptyPageM with
      query := fun s =>
        if s = "input[type=\"email\"]" then .found visElem else .notFound,
      frames := [emailFrame] } }

/-- A driver whose navigation fails. -/
def navFailDriver : Driver :=
  { emptyDriver with navigate := .error "net::ERR_NAME_NOT_RESOLVED" }

/-- A BQL page showing a dialog popup that hosts an email-capture form which
is also reachable from the main document (`form input[type="email"]`):
handle 1 is the dialog, 2 the email input, 3 its enclosing form, 4 the
submit button. -/
def popupFormPg : BQL.Pg :=
  { q := fun s =>
      if s = "div[role=\"dialog\"]" then some 1
      else if s = "form input[type=\"email\"]" then some 2
      else none,
    sub := fun e s =>
      if e = 1 && s = "input[type=\"email\"]" then some 2
      else if e = 3 && s = "button[type=\"submit\"]" then some 4
      else none,
    closestForm := fun _ => 3,
    frames := [],
    allElems := [],
    hasShadow := fun _ => false,
    shadowFind := fun _ _ => false,
    shadowFindSubmit := fun _ => false,
    evalOk := fun _ => true,
    fill := fun _ => .ok (),
    click := fun _ => .ok (),
    scrollLocked := false,
    scrollLockEvalOk := true }

/-- The BQL configuration used in the duplicate-submission scenario. -/
def onePassCfg : BQL.Cfg :=
  { maxRetries := 1, scrollLockDetection := true, adaptiveScrolling := true }

/-- A BQL page showing a dialog interstitial with no inner form, no close
control, and no email input anywhere; its scroll-lock probe reports locked. -/
def bareDialogPg : BQL.Pg :=
  { q := fun s => if s = "div[role=\"dialog\"]" then some 1 else none,
    sub := fun _ _ => none,
    closestForm := fun _ => 0,
    frames := [],
    allElems := [],
    hasShadow := fun _ => false,
    shadowFind := fun _ _ => false,
    shadowFindSubmit := fun _ => false,
    evalOk := fun _ => true,
    fill := fun _ => .ok (),
    click := fun _ => .ok (),
    scrollLocked := true,
    scrollLockEvalOk := true }

/-- A BQL page whose handle 7 hosts a shadow root containing neither an email
input nor a submit control, with all evaluations completing. -/
def emptyShadowPg : BQL.Pg :=
  { q := fun _ => none,
    sub := fun _ _ => none,
    closestForm := fun _ => 0,
    frames := [],
    allElems := [7],
    hasShadow := fun e => e = 7,
    shadowFind := fun _ _ => false,
    shadowFindSubmit := fun _ => false,
    evalOk := fun _ => true,
    fill := fun _ => .ok (),
    click := fun _ => .ok (),
    scrollLocked := false,
    scrollLockEvalOk := true }

/-! ## Resolution positivity and error propagation -/

/-- Visibility gives a positive bounding area. -/
theorem visibleE_pos (e : Elem) (h : visibleE e = true) :
    0 < e.width ∧ 0 < e.height := by
  simp [visibleE] at h
  tauto

/-- A handle produced by one selector step of `findElement` is bound to a
visible element: the bounding-box check filters everything else. -/
theorem tryOne_pos (pg : PageM) (w : Option WaitState) (sel : String) (h : Handle)
    (hh : tryOne pg w sel = some h) : ∃ e, h = .el e ∧ visibleE e = true := by
  unfold tryOne at hh
  split at hh
  · exact absurd hh (by simp)
  · exact absurd hh (by simp)
  · rename_i e he
    split at hh
    · rcases hb : boundingBox e with _ | box
      · rw [hb] at hh; exact absurd hh (by simp)
      · rw [hb] at hh
        simp at hh
        refine ⟨e, hh.symm, ?_⟩
        by_contra hv
        simp only [Bool.not_eq_true] at hv
        simp [boundingBox, hv] at hb
    · exact absurd hh (by simp)

/-- The selector loop of `findElement` only ever yields visible elements. -/
theorem findScan_pos (pg : PageM) (w : Option WaitState) (sels : List String)
    (h : Handle) (hh : findScan pg w sels = some h) :
    ∃ e, h = .el e ∧ visibleE e = true := by
  induction sels with
  | nil => exact absurd hh (by simp [findScan])
  | cons s rest ih =>
    unfold findScan at hh
    rcases ht : tryOne pg w s with _ | h2
    · rw [ht] at hh; exact ih hh
    · rw [ht] at hh
      simp at hh
      exact hh ▸ tryOne_pos pg w s h2 ht

/-- Under the default `visible` readiness requirement, the per-frame selector
loop yields only visible elements (and never the dangling locator). -/
theorem frameSels_vis (w : Option WaitState) (hw : w.getD .visible = .visible)
    (q : String → QueryResult) (sels : List String) (h : Handle)
    (hh : frameSels w q sels = some h) :
    ∃ e, h = .el e ∧ visibleE e = true := by
  induction sels with
  | nil => exact absurd hh (by simp [frameSels])
  | cons s rest ih =>
    unfold frameSels at hh
    rcases hq : q s with _ | e | _
    · rw [hq] at hh; exact absurd hh (by simp)
    · rw [hq] at hh
      dsimp only at hh
      by_cases hr : readyQ (.found e) w = true
      · rw [if_pos hr] at hh
        simp at hh
        refine ⟨e, hh.symm, ?_⟩
        unfold readyQ at hr
        rw [hw] at hr
        exact hr
      · rw [if_neg hr] at hh; exact ih hh
    · rw [hq] at hh
      dsimp only at hh
      have : readyQ .notFound w = false := by unfold readyQ; rw [hw]
      rw [this] at hh
      simp at hh
      exact ih hh

/-- Under the default `visible` readiness requirement, the frame loop of
`findInIframes` yields only visible elements. -/
theorem frameScan_vis (w : Option WaitState) (hw : w.getD .visible = .visible)
    (sels : List String) (frs : List FrameM) (h : Handle)
    (hh : frameScan w sels frs = some h) :
    ∃ e, h = .el e ∧ visibleE e = true := by
  induction frs with
  | nil => exact absurd hh (by simp [frameScan])
  | cons fr rest ih =>
    unfold frameScan at hh
    by_cases hc : fr.hasContent = true
    · rw [if_pos hc] at hh
      rcases hf : frameSels w fr.q sels with _ | h2
      · rw [hf] at hh; exact ih hh
      · rw [hf] at hh
        simp at hh
        exact hh ▸ frameSels_vis w hw fr.q sels h2 hf
    · rw [if_neg hc] at hh; exact ih hh

/-- C3 counterexample: on a page whose only match lives in a frame and is an
attached but zero-sized element, a strategy requiring only the `attached`
readiness state makes `findInIframes` return that element, whose bounding
area is null — element resolution can return a zero-sized element, contrary
to the claim that every returned handle has positive width and height. -/
theorem claim3_counterexample :
    findInIframes zeroFramePage attachedStrat = some (.el zeroElem) ∧
    boundingBox zeroElem = none ∧ zeroElem.width = 0 :=
  ⟨rfl, rfl, rfl⟩

/-- C3 amended: main-document resolution (`findElement`) returns only
handles bound to visible elements of positive width and height, whatever the
strategy's readiness requirement, because of its bounding-box check; frame
resolution (`findInIframes`) has no bounding-box check and guarantees a
positive area only when the strategy's required state is `visible` (the
default); with an `attached` or `detached` requirement it can return
zero-sized elements (and shadow resolution checks size nowhere). -/
theorem claim3_theorem :
    (∀ (pg : PageM) (s : Strategy) (h : Handle), findElement pg s = some h →
      ∃ e, h = Handle.el e ∧ visibleE e = true ∧ 0 < e.width ∧ 0 < e.height) ∧
    (∀ (pg : PageM) (s : Strategy) (h : Handle),
      s.waitFor.getD .visible = .visible → findInIframes pg s = some h →
      ∃ e, h = Handle.el e ∧ 0 < e.width ∧ 0 < e.height) := by
  constructor
  · intro pg s h hh
    obtain ⟨e, he, hv⟩ := findScan_pos pg s.waitFor _ h hh
    obtain ⟨h1, h2⟩ := visibleE_pos e hv
    exact ⟨e, he, hv, h1, h2⟩
  · intro pg s h hw hh
    obtain ⟨e, he, hv⟩ := frameScan_vis s.waitFor hw _ pg.frames h hh
    obtain ⟨h1, h2⟩ := visibleE_pos e hv
    exact ⟨e, he, h1, h2⟩

/-- C3 witness: the amended theorem applied to a page carrying a visible
email input on the main document, and to one carrying it in a frame under
the `visible` requirement. -/
theorem claim3_witness :
    visibleE visElem = true ∧ 0 < visElem.width ∧ 0 < visElem.height ∧
    0 < visElemB.width ∧ 0 < visElemB.height := by
  obtain ⟨e1, he1, hv1, hw1, hh1⟩ := claim3_theorem.1 happyDriver.pm
    { primary := "input[type=\"email\"]", fallbacks := [] } (.el visElem) rfl
  obtain ⟨e2, he2, hw2, hh2⟩ := claim3_theorem.2 bothContextsDriver.pm
    { primary := "input[type=\"email\"]", fallbacks := [],
      waitFor := some .visible } (.el visElemB) rfl rfl
  injection he1 with he1e
  injection he2 with he2e
  subst he1e
  subst he2e
  exact ⟨hv1, hw1, hh1, hw2, hh2⟩

/-- C8 counterexample: on a page where the in-page `querySelector` rejects
the (malformed) pattern, `findInShadowDOM` raises — its evaluation has no
surrounding catch — while `findElement` swallows the same failure and
returns `none`.  The lookup tiers are not all non-raising. -/
theorem claim8_counterexample :
    isErr (findInShadowDOM badSelPage badStrat) = true ∧
    findElement badSelPage badStrat = none :=
  ⟨rfl, rfl⟩

/-- C8 amended: `findElement` swallows a raising pattern/context combination
and continues with the next candidate, and `findInIframes` swallows a raising
frame and continues with the next frame, with `none` only on exhaustion; but
`findInShadowDOM` propagates a failed in-page evaluation (for instance a
pattern the in-page `querySelector` rejects) to its caller instead of
returning an optional result. -/
theorem claim8_theorem :
    (∀ (pg : PageM) (p q : String) (rest : List String) (w : Option WaitState),
      pg.query p = .err →
      findElement pg ⟨p, q :: rest, w⟩ = findElement pg ⟨q, rest, w⟩) ∧
    (∀ (pg : PageM) (s : Strategy) (fr : FrameM) (frs : List FrameM),
      fr.hasContent = true → fr.q s.primary = .err →
      findInIframes { pg with frames := fr :: frs } s =
        findInIframes { pg with frames := frs } s) ∧
    (∀ (pg : PageM) (s : Strategy), pg.validSel s.primary = false →
      isErr (findInShadowDOM pg s) = true) := by
  refine ⟨?_, ?_, ?_⟩
  · intro pg p q rest w herr
    simp [findElement, findScan, tryOne, herr]
  · intro pg s fr frs hc herr
    simp [findInIframes, frameScan, frameSels, hc, herr]
  · intro pg s hv
    simp [findInShadowDOM, shadowTry, hv, isErr]

/-- C8 witness: the amended theorem applied to the raising page and a
raising frame. -/
theorem claim8_witness :
    findElement badSelPage ⟨"input[[bad", ["input.x"], none⟩ =
      findElement badSelPage ⟨"input.x", [], none⟩ ∧
    findInIframes { emptyPageM with frames := [errFrame] } badStrat =
      findInIframes { emptyPageM with frames := [] } badStrat ∧
    isErr (findInShadowDOM badSelPage badStrat) = true :=
  ⟨claim8_theorem.1 badSelPage "input[[bad" "input.x" [] none rfl,
    claim8_theorem.2.1 { emptyPageM with frames := [errFrame] } badStrat errFrame [] rfl rfl,
    claim8_theorem.2.2 badSelPage badStrat rfl⟩

/-! ## The adaptive revealers -/

/-- C7 counterexample: on a page exposing a dialog interstitial from the
start (its scroll-lock probe even reports locked before any scrolling), the
BQL adaptive-scrolling pass still performs all four scroll stages — it never
probes for the interstitial and never stops early, so a run consists of the
full ascending sequence rather than stopping at the first detection. -/
theorem claim7_counterexample :
    (bareDialogPg.q "div[role=\"dialog\"]").isSome = true ∧
    BQL.detectScrollLock bareDialogPg onePassCfg = true ∧
    BQL.executeNewsletterSignup bareDialogPg onePassCfg =
      ([[.scroll 25, .scroll 50, .scroll 75, .scroll 100]], false) :=
  ⟨rfl, rfl, rfl⟩

/-- C7 amended: `part_001`'s `triggerPopupsWithScrolling` performs the fixed
offsets 25%, 50%, 75% and then back to 0% — not an ascending sequence — and
after each stage probes the collected diagnostics, stopping at the first
stage reporting an active interstitial (it returns nothing to its caller);
the BQL `performAdaptiveScrolling` performs the fixed ascending offsets 25%
to 100% unconditionally, with no probe and no early stop.  Neither revealer
scrolls past 100% of the page height. -/
theorem claim7_theorem (d : Driver) :
    scrollPcts (triggerPopupsWithScrolling d).1 = scrollStrategies.take (stopLen d) ∧
    scrollStrategies.all (fun p => p ≤ 100) = true ∧
    BQL.performAdaptiveScrolling =
      [.scroll 25, .scroll 50, .scroll 75, .scroll 100] ∧
    List.Chain' (· < ·) BQL.scrollSteps := by
  refine ⟨?_, rfl, rfl, by norm_num [BQL.scrollSteps, List.chain'_cons]⟩
  by_cases h1 : diagActive (d.diagAfter 1) = true
  · simp [triggerPopupsWithScrolling, triggerLoop, scrollStrategies, stopLen, h1, scrollPcts]
  · by_cases h2 : diagActive (d.diagAfter 2) = true
    · simp [triggerPopupsWithScrolling, triggerLoop, scrollStrategies, stopLen, h1, h2, scrollPcts]
    · by_cases h3 : diagActive (d.diagAfter 3) = true
      · simp [triggerPopupsWithScrolling, triggerLoop, scrollStrategies, stopLen, h1, h2, h3,
          scrollPcts]
      · by_cases h4 : diagActive (d.diagAfter 4) = true
        · simp [triggerPopupsWithScrolling, triggerLoop, scrollStrategies, stopLen, h1, h2, h3,
            h4, scrollPcts]
        · simp [triggerPopupsWithScrolling, triggerLoop, scrollStrategies, stopLen, h1, h2, h3,
            h4, scrollPcts]

/-! ## Shadow-form handling -/

/-- C9: `handleShadowDomForm` returns `true` exactly when its in-page
evaluation completes — even when the shadow root holds no submit control (or
no email input) and the evaluation filled and clicked nothing, because the
boolean computed inside the evaluation is discarded; it returns `false` only
when the evaluation rejects. -/
theorem claim9_theorem (pg : BQL.Pg) (host : BQL.BElem) (sel : String)
    (hok : pg.evalOk host = true) :
    (BQL.handleShadowDomForm pg host sel).2 = true ∧
    (pg.shadowFindSubmit host = false →
      BQL.handleShadowDomForm pg host sel = ([], true)) ∧
    (∀ (pg2 : BQL.Pg) (h2 : BQL.BElem) (s2 : String), pg2.evalOk h2 = false →
      BQL.handleShadowDomForm pg2 h2 s2 = ([], false)) := by
  refine ⟨?_, ?_, ?_⟩
  · simp [BQL.handleShadowDomForm, hok]
    split <;> rfl
  · intro hns
    simp [BQL.handleShadowDomForm, hok, hns]
  · intro pg2 h2 s2 hko
    simp [BQL.handleShadowDomForm, hko]

/-- C9 witness: the theorem applied to the page whose host 7 has an empty
shadow root — the evaluation completes, nothing is filled or clicked, and
the handler still reports `true`. -/
theorem claim9_witness :
    (BQL.handleShadowDomForm emptyShadowPg 7 "input[type=\"email\"]").2 = true ∧
    BQL.handleShadowDomForm emptyShadowPg 7 "input[type=\"email\"]" = ([], true) :=
  ⟨(claim9_theorem emptyShadowPg 7 "input[type=\"email\"]" rfl).1,
    (claim9_theorem emptyShadowPg 7 "input[type=\"email\"]" rfl).2.1 rfl⟩

/-! ## Event inventory of the part_001 orchestration -/

/-- The checkbox loop only ever clicks labels and checkboxes. -/
theorem cbLoop_ev (d : Driver) (es : List Elem) :
    ∀ ev ∈ (cbLoop d es).1, ev = Ev.labelClick ∨ ev = Ev.cbClick := by
  induction es with
  | nil => intro ev h; simp [cbLoop] at h
  | cons c rest ih =>
    intro ev h
    by_cases hc : d.isChecked c = true
    · rw [cbLoop, if_pos hc] at h
      exact ih ev h
    · rcases hid : d.idAttr c with _ | i
      · cases hcb : d.cbClick c with
        | error m => simp [cbLoop, hc, hid, hcb] at h
        | ok u =>
          simp [cbLoop, hc, hid, hcb] at h
          rcases h with h | h
          · exact Or.inr h
          · exact ih ev h
      · cases hlb : d.labelClick i with
        | ok u =>
          simp [cbLoop, hc, hid, hlb] at h
          rcases h with h | h
          · exact Or.inl h
          · exact ih ev h
        | error m =>
          cases hcb : d.cbClick c with
          | error m2 => simp [cbLoop, hc, hid, hlb, hcb] at h
          | ok u =>
            simp [cbLoop, hc, hid, hlb, hcb] at h
            rcases h with h | h
            · exact Or.inr h
            · exact ih ev h

/-- The checkbox strategy loop inherits the event inventory of `cbLoop`. -/
theorem cbStrategies_ev (d : Driver) (sts : List Strategy) :
    ∀ ev ∈ (cbStrategies d sts).1, ev = Ev.labelClick ∨ ev = Ev.cbClick := by
  induction sts with
  | nil => intro ev h; simp [cbStrategies] at h
  | cons st rest ih =>
    intro ev h
    rw [cbStrategies] at h
    rcases hcl : cbLoop d (findAllElements d.pm st) with ⟨t, l, r⟩
    rcases hcs : cbStrategies d rest with ⟨t2, l2⟩
    rw [hcl, hcs] at h
    simp at h
    rcases h with h | h
    · have := cbLoop_ev d (findAllElements d.pm st) ev
      rw [hcl] at this
      exact this h
    · have := ih ev
      rw [hcs] at this
      exact this h

/-- `handleCheckboxes` only ever clicks labels and checkboxes. -/
theorem handleCheckboxes_ev (d : Driver) :
    ∀ ev ∈ (handleCheckboxes d).1, ev = Ev.labelClick ∨ ev = Ev.cbClick :=
  cbStrategies_ev d checkboxStrategies

/-- Shape of one attempt: a failed attempt stops either at the email search
or after the (single) fill, checkbox pass and submit search; a successful
attempt performs exactly the fill, the checkbox pass, the submit search and
the single submit click. -/
theorem signupAttempt_shape (d : Driver) (i : Nat) :
    ((signupAttempt d i).1 = false ∧
      ((signupAttempt d i).2.trace = [.emailSearch] ∨
        (signupAttempt d i).2.trace =
          [.emailSearch, .fillEmail] ++ (handleCheckboxes d).1 ++ [.submitSearch])) ∨
    ((signupAttempt d i).1 = true ∧
      (signupAttempt d i).2.trace =
        [.emailSearch, .fillEmail] ++ (handleCheckboxes d).1 ++
          [.submitSearch, .submitClick]) := by
  unfold signupAttempt
  rcases hfe : findEmailInput d with ⟨lg, res⟩
  rcases res with m | ores
  · exact Or.inl ⟨rfl, Or.inl rfl⟩
  · rcases ores with _ | h
    · exact Or.inl ⟨rfl, Or.inl rfl⟩
    · cases hfill : d.fillRes h with
      | error m => simp [hfill]
      | ok u =>
        rcases hcb : handleCheckboxes d with ⟨tc, lc⟩
        rcases hsb : findSubmitButton d with ⟨ls, sres⟩
        rcases sres with m | osres
        · simp [hfill, hcb, hsb]
        · rcases osres with _ | b
          · simp [hfill, hcb, hsb]
          · cases hclk : d.clickRes b with
            | error m => simp [hfill, hcb, hsb, hclk]
            | ok u => simp [hfill, hcb, hsb, hclk]

/-- Checkbox handling contributes no occurrences of any other event. -/
theorem count_cb_zero (d : Driver) (ev : Ev) (h1 : ev ≠ Ev.labelClick)
    (h2 : ev ≠ Ev.cbClick) : (handleCheckboxes d).1.count ev = 0 := by
  rw [List.count_eq_zero]
  intro hm
  rcases handleCheckboxes_ev d ev hm with h | h
  · exact h1 h
  · exact h2 h

/-- Every attempt fills at most once and clicks submit at most once. -/
theorem signupAttempt_count (d : Driver) (i : Nat) :
    (signupAttempt d i).2.trace.count Ev.fillEmail ≤ 1 ∧
    (signupAttempt d i).2.trace.count Ev.submitClick ≤ 1 := by
  have hcf := count_cb_zero d Ev.fillEmail (by simp) (by simp)
  have hcs := count_cb_zero d Ev.submitClick (by simp) (by simp)
  rcases signupAttempt_shape d i with ⟨_, h | h⟩ | ⟨_, h⟩ <;>
    simp [h, List.count_append, List.count_cons, hcf, hcs]

/-- Every attempt begins by locating the email input. -/
theorem signupAttempt_email_mem (d : Driver) (i : Nat) :
    Ev.emailSearch ∈ (signupAttempt d i).2.trace := by
  rcases signupAttempt_shape d i with ⟨_, h | h⟩ | ⟨_, h⟩ <;> simp [h]

/-- No attempt performs popup handling. -/
theorem signupAttempt_no_popup (d : Driver) (i : Nat) :
    ∀ ev ∈ (signupAttempt d i).2.trace,
      ev ≠ Ev.popupClick ∧ ev ≠ Ev.popupPhase := by
  intro ev hm
  have hcb := handleCheckboxes_ev d ev
  rcases signupAttempt_shape d i with ⟨_, h | h⟩ | ⟨_, h⟩ <;> rw [h] at hm
  · simp at hm; simp [hm]
  · simp at hm
    rcases hm with h1 | h1 | h1 | h1
    · simp [h1]
    · simp [h1]
    · rcases hcb h1 with h2 | h2 <;> simp [h2]
    · simp [h1]
  · simp at hm
    rcases hm with h1 | h1 | h1 | h1 | h1
    · simp [h1]
    · simp [h1]
    · rcases hcb h1 with h2 | h2 <;> simp [h2]
    · simp [h1]
    · simp [h1]

/-- Last element of a list extended by two elements. -/
theorem getLast?_append_pair (l : List α) (a b : α) :
    (l ++ [a, b]).getLast? = some b := by
  rw [List.getLast?_append]
  simp

/-- A successful attempt ends with the submit click; nothing follows it. -/
theorem signupAttempt_true_last (d : Driver) (i : Nat) (a : Attempt)
    (h : signupAttempt d i = (true, a)) :
    a.trace.getLast? = some Ev.submitClick := by
  rcases signupAttempt_shape d i with ⟨hf, _⟩ | ⟨ht, htr⟩
  · rw [h] at hf; simp at hf
  · rw [h] at htr
    simp at htr
    rw [htr]
    rw [show Ev.emailSearch :: Ev.fillEmail ::
        ((handleCheckboxes d).1 ++ [Ev.submitSearch, Ev.submitClick]) =
      (Ev.emailSearch :: Ev.fillEmail :: (handleCheckboxes d).1) ++
        [Ev.submitSearch, Ev.submitClick] by simp]
    exact getLast?_append_pair _ _ _

/-- Every recorded attempt of the retry loop is one iteration's attempt. -/
theorem signupLoop_mem (d : Driver) (n i : Nat) (a : Attempt)
    (h : a ∈ (signupLoop d n i).2) : ∃ j, a = (signupAttempt d j).2 := by
  induction n generalizing i with
  | zero => simp [signupLoop] at h
  | succ n ih =>
    rw [signupLoop] at h
    rcases hs : signupAttempt d i with ⟨b, a0⟩
    rw [hs] at h
    cases b
    · rcases hl : signupLoop d n (i + 1) with ⟨b2, rest⟩
      rw [hl] at h
      simp at h
      rcases h with h | h
      · exact ⟨i, by rw [hs, h]⟩
      · have := ih (i + 1)
        rw [hl] at this
        exact this h
    · simp at h
      exact ⟨i, by rw [hs, h]⟩

/-- A successful retry loop ends with a successful attempt and stops
there. -/
theorem signupLoop_true (d : Driver) (n i : Nat) (atts : List Attempt)
    (h : signupLoop d n i = (true, atts)) :
    ∃ pre a j, atts = pre ++ [a] ∧ signupAttempt d j = (true, a) := by
  induction n generalizing i atts with
  | zero => simp [signupLoop] at h
  | succ n ih =>
    rw [signupLoop] at h
    rcases hs : signupAttempt d i with ⟨b, a0⟩
    rw [hs] at h
    cases b
    · rcases hl : signupLoop d n (i + 1) with ⟨b2, rest⟩
      rw [hl] at h
      simp at h
      rcases h with ⟨hb2, hatts⟩
      rw [hb2] at hl
      obtain ⟨pre, a, j, hrest, hj⟩ := ih (i + 1) rest hl
      exact ⟨a0 :: pre, a, j, by simp [← hatts, hrest], hj⟩
    · simp at h
      exact ⟨[], a0, i, by simp [← h], hs⟩

/-! ## Claim C1: duplicate submission -/

/-- The main-frame strategy loop stops at its completing click. -/
theorem mainStratLoop_true_last (pg : BQL.Pg) (sels : List String) (t : BQL.Trace)
    (h : BQL.mainStratLoop pg sels = (t, .ok true)) :
    t.getLast? = some BQL.Ev.click := by
  induction sels generalizing t with
  | nil => simp [BQL.mainStratLoop] at h
  | cons s rest ih =>
    rw [BQL.mainStratLoop] at h
    rcases hq : BQL.queryElement pg s with _ | inp
    · rw [hq] at h
      exact ih t h
    · rw [hq] at h
      dsimp only at h
      rcases hb : BQL.findSubmitButton pg inp with _ | btn
      · rw [hb] at h
        exact ih t h
      · rw [hb] at h
        dsimp only at h
        cases hf : pg.fill inp with
        | error m => rw [hf] at h; simp at h
        | ok u =>
          rw [hf] at h
          dsimp only at h
          cases hc : pg.click btn with
          | error m => rw [hc] at h; simp at h
          | ok u =>
            rw [hc] at h
            simp at h
            rw [← h]
            rfl

/-- C1 counterexample: on a page whose dialog popup hosts an email-capture
form that is also reachable from the main document, one BQL attempt submits
twice — the popup pass fills and clicks, does not short-circuit the attempt,
and the strategy phase then fills and clicks again.  The submission step of
one attempt is not executed at most once. -/
theorem claim1_counterexample :
    BQL.executeNewsletterSignup popupFormPg onePassCfg =
      ([[.fill, .click, .fill, .click]], true) ∧
    ((BQL.executeNewsletterSignup popupFormPg onePassCfg).1.map
      fun t => t.count .fill) = [2] ∧
    ((BQL.executeNewsletterSignup popupFormPg onePassCfg).1.map
      fun t => t.count .click) = [2] :=
  ⟨rfl, rfl, rfl⟩

/-- C1 amended: within one attempt of `part_001`'s orchestration the
submission step executes at most once (at most one fill and one submit
click), and a successful submission ends the attempt immediately — the
submit click is the attempt's last action and the retry loop stops at that
attempt.  The BQL strategy-search phase likewise stops at its first
completed main-frame submission, whose click is the phase's last action; but
the BQL popup-handling pass earlier in the same attempt may itself have
filled and clicked, so a BQL attempt as a whole can submit twice. -/
theorem claim1_theorem :
    (∀ (d : Driver) (cfg : AutomationConfig) (a : Attempt),
      a ∈ (attemptNewsletterSignup d cfg).2 →
      a.trace.count Ev.fillEmail ≤ 1 ∧ a.trace.count Ev.submitClick ≤ 1) ∧
    (∀ (d : Driver) (cfg : AutomationConfig) (atts : List Attempt),
      attemptNewsletterSignup d cfg = (true, atts) →
      ∃ pre a, atts = pre ++ [a] ∧ a.trace.getLast? = some Ev.submitClick) ∧
    (∀ (pg : BQL.Pg) (s : BQL.SelectorStrategy) (t : BQL.Trace),
      BQL.executeMainFrameStrategy pg s = (t, .ok true) →
      t.getLast? = some BQL.Ev.click) := by
  refine ⟨?_, ?_, ?_⟩
  · intro d cfg a hm
    obtain ⟨j, hj⟩ := signupLoop_mem d cfg.retryAttempts 0 a hm
    rw [hj]
    exact signupAttempt_count d j
  · intro d cfg atts h
    obtain ⟨pre, a, j, hatts, hj⟩ := signupLoop_true d cfg.retryAttempts 0 atts h
    exact ⟨pre, a, hatts, signupAttempt_true_last d j a hj⟩
  · intro pg s t h
    exact mainStratLoop_true_last pg s.selectors t h

/-- C1 witness: the amended theorem applied to the attempt produced by the
happy-path driver. -/
theorem claim1_witness :
    ((⟨[.emailSearch, .fillEmail, .submitSearch, .submitClick],
       ["Email input found on main page", "Submit button found on main page",
        successMsg 0], []⟩ : Attempt).trace.count Ev.fillEmail ≤ 1 ∧
     (⟨[.emailSearch, .fillEmail, .submitSearch, .submitClick],
       ["Email input found on main page", "Submit button found on main page",
        successMsg 0], []⟩ : Attempt).trace.count Ev.submitClick ≤ 1) :=
  claim1_theorem.1 happyDriver { retryAttempts := 1 }
    ⟨[.emailSearch, .fillEmail, .submitSearch, .submitClick],
     ["Email input found on main page", "Submit button found on main page",
      successMsg 0], []⟩ (by decide)

/-! ## Claim C2: attempt bound -/

/-- When the email input is never found, the retry loop runs all its
iterations, each failing with the not-found error entry. -/
theorem signupLoop_noInput (d : Driver) (hmail : findEmailInput d = ([], .ok none)) :
    ∀ n i, signupLoop d n i =
      (false, (List.range n).map fun k => ⟨[.emailSearch], [], [noInputMsg (i + k)]⟩) := by
  intro n
  induction n with
  | zero => intro i; simp [signupLoop]
  | succ n ih =>
    intro i
    rw [signupLoop]
    have hs : signupAttempt d i = (false, ⟨[.emailSearch], [], [noInputMsg i]⟩) := by
      unfold signupAttempt
      rw [hmail]
    rw [hs, ih (i + 1)]
    rw [List.range_succ_eq_map, List.map_cons, List.map_map]
    refine congrArg (Prod.mk false) ?_
    refine congrArg₂ List.cons ?_ ?_
    · simp
    · refine List.map_congr_left fun k hk => ?_
      have hik : i + 1 + k = i + (k + 1) := by omega
      simp [Function.comp, hik]

/-- C2: with `retryAttempts = N ≥ 1` and a driver on which the email input is
never found, the orchestration performs exactly N attempts, records one
attempt-failure entry per attempt, and the run returns a failure result —
the loop never exceeds N and the run returns a result rather than
raising. -/
theorem claim2_theorem (d : Driver) (cfg : AutomationConfig)
    (hN : 1 ≤ cfg.retryAttempts)
    (hmail : findEmailInput d = ([], .ok none))
    (hnav : d.navigate = .ok ()) :
    (attemptNewsletterSignup d cfg).1 = false ∧
    (attemptNewsletterSignup d cfg).2.length = cfg.retryAttempts ∧
    (attemptNewsletterSignup d cfg).2.map Attempt.errs =
      (List.range cfg.retryAttempts).map (fun k => [noInputMsg k]) ∧
    (executeAutomation true d cfg).1.success = false ∧
    allAttemptsFailedMsg ∈ (executeAutomation true d cfg).1.errors := by
  have hA : attemptNewsletterSignup d cfg =
      (false, (List.range cfg.retryAttempts).map
        fun k => ⟨[.emailSearch], [], [noInputMsg (0 + k)]⟩) :=
    signupLoop_noInput d hmail cfg.retryAttempts 0
  rcases hp : handlePopupsAndModals d with ⟨tp, lp, n0, dg⟩
  refine ⟨?_, ?_, ?_, ?_, ?_⟩
  · simp [hA]
  · simp [hA]
  · rw [hA]
    simp only [List.map_map]
    exact List.map_congr_left fun k hk => by simp [Function.comp]
  · simp only [executeAutomation, hnav, hA, hp]
    rfl
  · simp only [executeAutomation, hnav, hA, hp]
    simp only [Bool.not_true, Bool.false_eq_true, if_false]
    simp [List.mem_append]

/-- C2 witness: the theorem at the empty driver with three attempts. -/
theorem claim2_witness :
    (attemptNewsletterSignup emptyDriver { retryAttempts := 3 }).1 = false ∧
    (attemptNewsletterSignup emptyDriver { retryAttempts := 3 }).2.length = 3 ∧
    (attemptNewsletterSignup emptyDriver { retryAttempts := 3 }).2.map Attempt.errs =
      (List.range 3).map (fun k => [noInputMsg k]) ∧
    (executeAutomation true emptyDriver { retryAttempts := 3 }).1.success = false ∧
    allAttemptsFailedMsg ∈
      (executeAutomation true emptyDriver { retryAttempts := 3 }).1.errors :=
  claim2_theorem emptyDriver { retryAttempts := 3 } (by decide) rfl rfl

/-! ## Claim C5: verification does not gate success -/

/-- The checkbox loop ignores the verification driver field. -/
theorem cbLoop_verify (d : Driver) (v : String → Bool) (es : List Elem) :
    cbLoop { d with verifySel := v } es = cbLoop d es := by
  induction es with
  | nil => rfl
  | cons c rest ih => simp only [cbLoop, ih]

/-- The checkbox strategy loop ignores the verification driver field. -/
theorem cbStrategies_verify (d : Driver) (v : String → Bool) (sts : List Strategy) :
    cbStrategies { d with verifySel := v } sts = cbStrategies d sts := by
  induction sts with
  | nil => rfl
  | cons st rest ih => simp only [cbStrategies, cbLoop_verify, ih]

/-- `handleCheckboxes` ignores the verification driver field. -/
theorem handleCheckboxes_verify (d : Driver) (v : String → Bool) :
    handleCheckboxes { d with verifySel := v } = handleCheckboxes d :=
  cbStrategies_verify d v checkboxStrategies

/-- One attempt ignores the verification driver field: the probe sits after
the attempt's `return true` in the source and is never executed. -/
theorem signupAttempt_verify (d : Driver) (v : String → Bool) (i : Nat) :
    signupAttempt { d with verifySel := v } i = signupAttempt d i := by
  simp only [signupAttempt, handleCheckboxes_verify,
    show findEmailInput { d with verifySel := v } = findEmailInput d from rfl,
    show findSubmitButton { d with verifySel := v } = findSubmitButton d from rfl]

/-- The retry loop ignores the verification driver field. -/
theorem signupLoop_verify (d : Driver) (v : String → Bool) (n i : Nat) :
    signupLoop { d with verifySel := v } n i = signupLoop d n i := by
  induction n generalizing i with
  | zero => rfl
  | succ n ih => simp only [signupLoop, signupAttempt_verify, ih]

/-- C5: an attempt whose submission step completes (email located and
filled, submit located and clicked, no driver rejection) is reported as a
success, and the outcome of post-submit verification cannot change the
result of the signup orchestration: the orchestration is invariant under any
replacement of the verification driver behaviour — in particular it succeeds
even when every verification probe reports failure. -/
theorem claim5_theorem (d : Driver) (cfg : AutomationConfig) (lg ls : List String)
    (h : Found) (b : Found)
    (hemail : findEmailInput d = (lg, .ok (some h)))
    (hfill : d.fillRes h = .ok ())
    (hsubmit : findSubmitButton d = (ls, .ok (some b)))
    (hclick : d.clickRes b = .ok ())
    (hN : 1 ≤ cfg.retryAttempts) :
    (attemptNewsletterSignup d cfg).1 = true ∧
    (∀ v, attemptNewsletterSignup { d with verifySel := v } cfg =
      attemptNewsletterSignup d cfg) ∧
    verifySubmissionSuccess { d with verifySel := fun _ => false } = false := by
  refine ⟨?_, ?_, ?_⟩
  · obtain ⟨n, hn⟩ : ∃ n, cfg.retryAttempts = n + 1 := ⟨cfg.retryAttempts - 1, by omega⟩
    rcases hcb : handleCheckboxes d with ⟨tc, lc⟩
    have hs : signupAttempt d 0 = (true,
        ⟨[.emailSearch, .fillEmail] ++ tc ++ [.submitSearch, .submitClick],
         lg ++ lc ++ ls ++ [successMsg 0], []⟩) := by
      unfold signupAttempt
      rw [hemail]
      dsimp only
      rw [hfill]
      dsimp only
      rw [hcb, hsubmit]
      dsimp only
      rw [hclick]
    simp [attemptNewsletterSignup, hn, signupLoop, hs]
  · intro v
    exact signupLoop_verify d v cfg.retryAttempts 0
  · rfl

/-- C5 witness: the theorem at the happy-path driver, with the
verification-independence conjunct instantiated at the all-failing
verification behaviour. -/
theorem claim5_witness :
    (attemptNewsletterSignup happyDriver { retryAttempts := 2 }).1 = true ∧
    attemptNewsletterSignup { happyDriver with verifySel := fun _ => false }
        { retryAttempts := 2 } =
      attemptNewsletterSignup happyDriver { retryAttempts := 2 } ∧
    verifySubmissionSuccess { happyDriver with verifySel := fun _ => false } = false :=
  ⟨(claim5_theorem happyDriver { retryAttempts := 2 }
      ["Email input found on main page"] ["Submit button found on main page"]
      (.mainH (.el visElem)) (.mainH (.el visElem)) rfl rfl rfl rfl (by decide)).1,
    (claim5_theorem happyDriver { retryAttempts := 2 }
      ["Email input found on main page"] ["Submit button found on main page"]
      (.mainH (.el visElem)) (.mainH (.el visElem)) rfl rfl rfl rfl
      (by decide)).2.1 (fun _ => false),
    (claim5_theorem happyDriver { retryAttempts := 2 }
      ["Email input found on main page"] ["Submit button found on main page"]
      (.mainH (.el visElem)) (.mainH (.el visElem)) rfl rfl rfl rfl
      (by decide)).2.2⟩

/-! ## Claim C6: context precedence -/

/-- C6: when some email strategy resolves on the main document, the email
input resolves to that main-document match — frames and shadow subtrees are
not consulted; and the BQL strategy table, sorted by priority as
`executeFormStrategies` sorts it, searches all main-document strategies
before the iframe strategy, which precedes the shadow strategy. -/
theorem claim6_theorem (d : Driver) (h : Handle)
    (hm : firstSome (findElement d.pm) emailInputStrategies = some h) :
    findEmailInput d = (["Email input found on main page"], .ok (some (.mainH h))) ∧
    (BQL.sortByPriority BQL.selectorStrategies).map BQL.SelectorStrategy.context =
      [.main, .main, .main, .main, .iframe, .shadow] := by
  constructor
  · unfold findEmailInput
    rw [hm]
  · rfl

/-- C6 witness: the theorem on a page carrying the email input both on the
main document and in a frame; the resolver returns the main match even
though the frame also matches. -/
theorem claim6_witness :
    findEmailInput bothContextsDriver =
      (["Email input found on main page"], .ok (some (.mainH (.el visElem)))) ∧
    (BQL.sortByPriority BQL.selectorStrategies).map BQL.SelectorStrategy.context =
      [.main, .main, .main, .main, .iframe, .shadow] :=
  claim6_theorem bothContextsDriver (.el visElem) rfl

/-! ## Claim C10: the public interface never throws -/

/-- C10: `executeAutomation` returns a result record on every path, always
with `executionTime` assigned: called before initialization it reports the
not-initialized error with `success = false`; a navigation rejection (the
driver exception that reaches its catch) is appended to the errors with
`success` remaining `false`. -/
theorem claim10_theorem :
    (∀ (d : Driver) (cfg : AutomationConfig),
      (executeAutomation false d cfg).1.success = false ∧
      (executeAutomation false d cfg).1.errors = [notInitializedMsg] ∧
      (executeAutomation false d cfg).1.executionTimeSet = true) ∧
    (∀ (ii : Bool) (d : Driver) (cfg : AutomationConfig),
      (executeAutomation ii d cfg).1.executionTimeSet = true) ∧
    (∀ (d : Driver) (cfg : AutomationConfig) (m : String), d.navigate = .error m →
      (executeAutomation true d cfg).1.success = false ∧
      ("Automation failed: " ++ m) ∈ (executeAutomation true d cfg).1.errors) := by
  refine ⟨?_, ?_, ?_⟩
  · intro d cfg
    exact ⟨rfl, rfl, rfl⟩
  · intro ii d cfg
    cases ii
    · rfl
    · cases hnav : d.navigate with
      | error m => simp [executeAutomation, hnav]
      | ok u => simp [executeAutomation, hnav]
  · intro d cfg m hnav
    constructor <;> simp [executeAutomation, hnav]

/-- C10 witness: the theorem at a driver whose navigation fails. -/
theorem claim10_witness :
    (executeAutomation true navFailDriver { retryAttempts := 3 }).1.success = false ∧
    ("Automation failed: " ++ "net::ERR_NAME_NOT_RESOLVED") ∈
      (executeAutomation true navFailDriver { retryAttempts := 3 }).1.errors :=
  claim10_theorem.2.2 navFailDriver { retryAttempts := 3 }
    "net::ERR_NAME_NOT_RESOLVED" rfl

/-! ## Claim C4: popup handling versus attempts -/

/-- The staged scroll loop emits only scroll events. -/
theorem triggerLoop_ev (d : Driver) (ps : List Nat) :
    ∀ k, ∀ ev ∈ (triggerLoop d k ps).1, ∃ p, ev = Ev.scroll p := by
  induction ps with
  | nil => intro k ev h; simp [triggerLoop] at h
  | cons p rest ih =>
    intro k ev h
    rw [triggerLoop] at h
    by_cases hd : diagActive (d.diagAfter (k + 1)) = true
    · rw [if_pos hd] at h
      simp at h
      exact ⟨p, h⟩
    · rw [if_neg hd] at h
      rcases ht : triggerLoop d (k + 1) rest with ⟨t, n⟩
      rw [ht] at h
      simp at h
      rcases h with h | h
      · exact ⟨p, h⟩
      · have := ih (k + 1) ev
        rw [ht] at this
        exact this h

/-- When the close control resolves and its click succeeds, the popup pass
clicks exactly once: the newsletter-popup strategy only waits, and the
close-button strategy clicks the resolved control. -/
theorem popupLoop_trace (d : Driver) (n : Nat) (h : Handle)
    (hclose : findElement d.pm closeButtonStrategy.selectors = some h)
    (hclick : d.clickPopup h = .ok ()) :
    (popupLoop d n popupStrategies).1 = [Ev.popupClick] := by
  cases hf : findElement d.pm newsletterPopupStrategy.selectors with
  | none =>
    simp [popupStrategies, popupLoop, hf, hclose, hclick,
      show closeButtonStrategy.action = PopupAction.click from rfl,
      show newsletterPopupStrategy.action = PopupAction.wait from rfl]
  | some hh =>
    simp [popupStrategies, popupLoop, hf, hclose, hclick,
      show closeButtonStrategy.action = PopupAction.click from rfl,
      show newsletterPopupStrategy.action = PopupAction.wait from rfl]

/-- A non-empty retry loop records the first attempt first. -/
theorem signupLoop_head (d : Driver) (n i : Nat) :
    ∃ rest, (signupLoop d (n + 1) i).2 = (signupAttempt d i).2 :: rest := by
  rw [signupLoop]
  rcases hs : signupAttempt d i with ⟨b, a⟩
  cases b
  · rcases hl : signupLoop d n (i + 1) with ⟨b2, r⟩
    exact ⟨r, by simp [hs, hl]⟩
  · exact ⟨[], by simp [hs]⟩

/-- The retry loop performs no popup handling in any attempt. -/
theorem signupFlatten_no_popup (d : Driver) (n i : Nat) :
    ∀ ev ∈ ((signupLoop d n i).2.map Attempt.trace).flatten,
      ev ≠ Ev.popupClick ∧ ev ≠ Ev.popupPhase := by
  intro ev h
  rw [List.mem_flatten] at h
  obtain ⟨l, hl, hev⟩ := h
  rw [List.mem_map] at hl
  obtain ⟨a, ha, rfl⟩ := hl
  obtain ⟨j, hj⟩ := signupLoop_mem d n i a ha
  rw [hj] at hev
  exact signupAttempt_no_popup d j ev hev

/-- C4 counterexample: with a dismissible modal and a ready email input on
the page and two configured attempts, the run performs one popup-handling
pass but two attempts (two email searches) — popup handling runs once per
run, before the first attempt, not once per attempt as claimed. -/
theorem claim4_counterexample :
    ((executeAutomation true modalNoSubmitDriver { retryAttempts := 2 }).2.count
      Ev.popupPhase) = 1 ∧
    ((executeAutomation true modalNoSubmitDriver { retryAttempts := 2 }).2.count
      Ev.emailSearch) = 2 ∧
    Ev.popupClick ∈
      (executeAutomation true modalNoSubmitDriver { retryAttempts := 2 }).2 ∧
    (executeAutomation true modalNoSubmitDriver { retryAttempts := 2 }).1.success
      = false :=
  ⟨rfl, rfl, by decide, rfl⟩

/-- C4 amended: popup/modal handling runs exactly once per run, before form
discovery of the first attempt (not once per attempt): whenever navigation
succeeds, a dismissible modal's close control resolves, its click succeeds
and at least one attempt is configured, the run's trace splits into a
popup-handling prefix — containing the close click and no email lookup —
followed by the attempts, which locate the email input and never handle
popups. -/
theorem claim4_theorem (d : Driver) (cfg : AutomationConfig) (h : Handle)
    (hnav : d.navigate = .ok ())
    (hclose : findElement d.pm closeButtonStrategy.selectors = some h)
    (hclick : d.clickPopup h = .ok ())
    (hN : 1 ≤ cfg.retryAttempts) :
    (executeAutomation true d cfg).2.count Ev.popupPhase = 1 ∧
    ∃ t1 t2, (executeAutomation true d cfg).2 = t1 ++ t2 ∧
      Ev.popupClick ∈ t1 ∧ Ev.emailSearch ∉ t1 ∧
      Ev.emailSearch ∈ t2 ∧ Ev.popupClick ∉ t2 := by
  rcases htr : triggerPopupsWithScrolling d with ⟨ts, nScr⟩
  rcases hpl : popupLoop d nScr popupStrategies with ⟨tp, lp, dg⟩
  have htp : tp = [Ev.popupClick] := by
    have := popupLoop_trace d nScr h hclose hclick
    rw [hpl] at this
    exact this
  have hp : handlePopupsAndModals d = (.popupPhase :: ts ++ tp, lp, nScr, dg) := by
    simp [handlePopupsAndModals, htr, hpl]
  rcases hA : attemptNewsletterSignup d cfg with ⟨ok, atts⟩
  have hexe : (executeAutomation true d cfg).2 =
      (.popupPhase :: ts ++ tp) ++ (atts.map Attempt.trace).flatten := by
    simp only [executeAutomation, hnav, hp, hA]
    rfl
  have hts : ∀ ev ∈ ts, ∃ p, ev = Ev.scroll p := by
    intro ev hm
    have := triggerLoop_ev d scrollStrategies 0 ev
    rw [show triggerLoop d 0 scrollStrategies = (ts, nScr) from htr] at this
    exact this hm
  have hfl : ∀ ev ∈ (atts.map Attempt.trace).flatten,
      ev ≠ Ev.popupClick ∧ ev ≠ Ev.popupPhase := by
    have := signupFlatten_no_popup d cfg.retryAttempts 0
    rw [show signupLoop d cfg.retryAttempts 0 = (ok, atts) from hA] at this
    exact this
  constructor
  · rw [hexe]
    have h1 : ts.count Ev.popupPhase = 0 := by
      rw [List.count_eq_zero]
      intro hm
      obtain ⟨p, hps⟩ := hts Ev.popupPhase hm
      simp at hps
    have h2 : tp.count Ev.popupPhase = 0 := by rw [htp]; rfl
    have h3 : ((atts.map Attempt.trace).flatten).count Ev.popupPhase = 0 := by
      rw [List.count_eq_zero]
      intro hm
      exact (hfl Ev.popupPhase hm).2 rfl
    simp [List.count_append, List.count_cons, h1, h2, h3]
  · refine ⟨.popupPhase :: ts ++ tp, (atts.map Attempt.trace).flatten, hexe,
      ?_, ?_, ?_, ?_⟩
    · rw [htp]; simp
    · intro hm
      simp at hm
      rcases hm with hm | hm
      · obtain ⟨p, hps⟩ := hts Ev.emailSearch hm
        simp at hps
      · rw [htp] at hm
        simp at hm
    · obtain ⟨n1, hn1⟩ : ∃ n1, cfg.retryAttempts = n1 + 1 :=
        ⟨cfg.retryAttempts - 1, by omega⟩
      obtain ⟨rest, hhead⟩ := signupLoop_head d n1 0
      rw [show signupLoop d (n1 + 1) 0 = (ok, atts) from hn1 ▸ hA] at hhead
      have hhead2 : atts = (signupAttempt d 0).2 :: rest := hhead
      rw [List.mem_flatten]
      refine ⟨(signupAttempt d 0).2.trace, ?_, signupAttempt_email_mem d 0⟩
      rw [List.mem_map]
      exact ⟨(signupAttempt d 0).2, by rw [hhead2]; simp, rfl⟩
    · intro hm
      exact (hfl Ev.popupClick hm).1 rfl

/-- C4 witness: the amended theorem at the modal-and-email driver with two
configured attempts. -/
theorem claim4_witness :
    ((executeAutomation true modalNoSubmitDriver { retryAttempts := 2 }).2.count
      Ev.popupPhase) = 1 :=
  (claim4_theorem modalNoSubmitDriver { retryAttempts := 2 } (.el visElem)
    rfl rfl rfl (by decide)).1
